import Mathlib

/-!
# Techpedia dashboard backend: shallow embedding and verification

This file embeds the data model and the route-handler logic of the
e-commerce backend (cart, checkout, product administration, auth
middleware) as executable Lean definitions, and proves the specification
claims about them.

Modelling conventions:
* the relational store is a `DB` record of lists of rows; entity ids are
  `Nat`, bearer tokens are `String`;
* prices (JS `number` / Prisma `Float`) are modelled as exact rationals
  `ℚ`: every arithmetic claim proved here concerns values computed once
  from the same snapshot, so exact arithmetic is the faithful reading;
* integer columns (`stock`, `quantity`) are `Int`, as in the schema; the
  handlers' validation (`Number.isInteger`, zod `int().min(1)`) is the
  `Int` type plus the explicit sign checks kept from the source;
* each operation models the body of its route handler after the
  authentication gate (`getCurrentUser` / role check); the middleware
  itself (`auth`) and `logout` are modelled explicitly for the
  token-revocation claims, with JWT verification abstracted as a
  function parameter `verify`;
* the Xendit invoice call is abstracted as an `invoiceOutcome` parameter:
  `some url` models a successful `createXenditInvoice` returning
  `invoiceUrl = url`, `none` models the call throwing;
* `Brand` / `Category` rows are kept as id lists (the handlers only test
  existence); `ProductReview` rows and image handling are omitted (no
  claim mentions them).
-/

namespace Techpedia

/-- `Role` enum of the Prisma schema. -/
inductive Role where
  | ADMIN
  | CUSTOMER
deriving DecidableEq

/-- `PaymentStatus` enum of the Prisma schema. -/
inductive PaymentStatus where
  | PENDING
  | PAID
  | FAILED
deriving DecidableEq

/-- `Product` row (id, name, description, price, stock, imageUrl, brandId, categoryId). -/
structure Product where
  id : Nat
  name : String
  description : String
  price : ℚ
  stock : Int
  imageUrl : String
  brandId : Nat
  categoryId : Nat
deriving DecidableEq

/-- `CartItem` row: (user, product) pair with a quantity. -/
structure CartItem where
  id : Nat
  userId : Nat
  productId : Nat
  quantity : Int
deriving DecidableEq

/-- `Order` row. -/
structure Order where
  id : Nat
  userId : Nat
  totalAmount : ℚ
  paymentStatus : PaymentStatus
  paymentMethod : String
deriving DecidableEq

/-- `OrderItem` row: price and quantity snapshot of one cart line. -/
structure OrderItem where
  orderId : Nat
  productId : Nat
  price : ℚ
  quantity : Int
deriving DecidableEq

/-- `User` row (password hash omitted; the middleware returns these fields). -/
structure User where
  id : Nat
  email : String
  name : String
  role : Role
deriving DecidableEq

/-- The relational store: one list per table, plus a fresh-id counter
standing for the uuid generator. -/
structure DB where
  products : List Product
  cartItems : List CartItem
  orders : List Order
  orderItems : List OrderItem
  users : List User
  brands : List Nat
  categories : List Nat
  invalidTokens : List String
  nextId : Nat
deriving DecidableEq

/-- `prisma.product.findUnique({ where: { id } })`. -/
def findProduct (db : DB) (pid : Nat) : Option Product :=
  db.products.find? (fun p => p.id == pid)

/-- `prisma.cartItem.findMany({ where: { userId } })`. -/
def userCart (db : DB) (uid : Nat) : List CartItem :=
  db.cartItems.filter (fun c => c.userId == uid)

/-- The `include: { product: true }` join: pairs every cart item with its
product row; `none` if some product row is missing (a broken foreign key,
which Prisma would surface as a thrown error). -/
def joinProducts (db : DB) : List CartItem → Option (List (CartItem × Product))
  | [] => some []
  | c :: cs =>
    match findProduct db c.productId, joinProducts db cs with
    | some p, some rest => some ((c, p) :: rest)
    | _, _ => none

/-- One step of the checkout `reduce`: `acc + item.product.price * item.quantity`. -/
def lineTotal (acc : ℚ) (cp : CartItem × Product) : ℚ :=
  acc + cp.2.price * (cp.1.quantity : ℚ)

/-- `cartItems.reduce((acc, item) => acc + item.product.price * item.quantity, 0)`. -/
def cartTotal (lines : List (CartItem × Product)) : ℚ :=
  lines.foldl lineTotal 0

/-- The stock validation test of one cart line: `item.product.stock < item.quantity`. -/
def stockShort (cp : CartItem × Product) : Bool :=
  decide (cp.2.stock < cp.1.quantity)

/-- The `items.create` snapshot of one cart line into an `OrderItem`. -/
def toOrderItem (oid : Nat) (cp : CartItem × Product) : OrderItem :=
  ⟨oid, cp.1.productId, cp.2.price, cp.1.quantity⟩

/-- `prisma.order.create` with nested `items.create`: appends the PENDING
order row and its `OrderItem` snapshots. -/
def checkoutCommit (db : DB) (uid : Nat) (lines : List (CartItem × Product)) : DB :=
  { db with
    orders := db.orders ++ [⟨db.nextId, uid, cartTotal lines, PaymentStatus.PENDING, "XENDIT"⟩],
    orderItems := db.orderItems ++ lines.map (toOrderItem db.nextId),
    nextId := db.nextId + 1 }

/-- `prisma.cartItem.deleteMany({ where: { userId } })`. -/
def clearCart (db : DB) (uid : Nat) : DB :=
  { db with cartItems := db.cartItems.filter (fun c => c.userId != uid) }

/-- Result of the checkout handler (`POST /api/checkout`). -/
inductive CheckoutResult where
  | success (orderId : Nat) (invoiceUrl : String) (totalAmount : ℚ)
  | emptyCart
  | insufficientStock (productId : Nat) (productName : String)
      (availableStock requestedQuantity : Int)
  | databaseError
  | gatewayError
deriving DecidableEq

/-- The checkout handler body (`POST /api/checkout`), after the
customer-role gate: load the cart with product snapshots, reject an empty
cart, compute the total, validate every line against current stock,
create the order with its item snapshots, call the gateway
(`invoiceOutcome`), and clear the cart only when the gateway call
succeeded.  A gateway failure is caught after the order was persisted, so
the order stays and the cart is kept. -/
def checkout (db : DB) (uid : Nat) (invoiceOutcome : Option String) :
    CheckoutResult × DB :=
  if (userCart db uid).isEmpty then (.emptyCart, db)
  else
    match joinProducts db (userCart db uid) with
    | none => (.databaseError, db)
    | some lines =>
      match lines.find? stockShort with
      | some cp =>
        (.insufficientStock cp.2.id cp.2.name cp.2.stock cp.1.quantity, db)
      | none =>
        match invoiceOutcome with
        | none => (.gatewayError, checkoutCommit db uid lines)
        | some url =>
          (.success db.nextId url (cartTotal lines),
            clearCart (checkoutCommit db uid lines) uid)

/-- Result of the cart-add handler (`POST /api/cart`). -/
inductive AddItemResult where
  | invalidInput
  | notFound
  | insufficientStock (available : Int)
  | exceedsStockWithCart (currentInCart available : Int)
  | created (item : CartItem)
  | updated (item : CartItem)
deriving DecidableEq

/-- `true` exactly on the 200/201 outcomes of the cart-add handler. -/
def AddItemResult.isSuccess : AddItemResult → Bool
  | .created _ => true
  | .updated _ => true
  | _ => false

/-- The cart-add handler body (`POST /api/cart`), after the customer
gate: zod validation (`quantity` a positive integer), product lookup,
stock check against the requested quantity, then against the summed
quantity when a cart line for the product already exists; creates or
updates the `CartItem`. -/
def addItem (db : DB) (uid pid : Nat) (quantity : Int) : AddItemResult × DB :=
  if quantity < 1 then (.invalidInput, db)
  else
    match findProduct db pid with
    | none => (.notFound, db)
    | some product =>
      if product.stock < quantity then (.insufficientStock product.stock, db)
      else
        match db.cartItems.find? (fun c => c.userId == uid && c.productId == pid) with
        | some existing =>
          if product.stock < existing.quantity + quantity then
            (.exceedsStockWithCart existing.quantity product.stock, db)
          else
            (.updated { existing with quantity := existing.quantity + quantity },
              { db with cartItems := db.cartItems.map (fun c =>
                  if c.id == existing.id then
                    { existing with quantity := existing.quantity + quantity }
                  else c) })
        | none =>
          (.created ⟨db.nextId, uid, pid, quantity⟩,
            { db with cartItems := db.cartItems ++ [⟨db.nextId, uid, pid, quantity⟩],
                      nextId := db.nextId + 1 })

/-- Result of the cart-update handler (`PUT /api/cart/:id`). -/
inductive UpdateCartResult where
  | missingUserId
  | invalidQuantity
  | notFound
  | accessDenied
  | insufficientStock (available : Int)
  | databaseError
  | updated (item : CartItem)
deriving DecidableEq

/-- The cart-update handler body (`PUT /api/cart/:id`).  `authUserId` is
the authenticated caller (already non-null by the gate); note that the
source only uses it for that gate: the ownership check compares the cart
item's owner against `userId` taken from the request body. -/
def updateCartItemQuantity (db : DB) (authUserId cartItemId : Nat)
    (bodyUserId : Option Nat) (quantity : Int) : UpdateCartResult × DB :=
  match bodyUserId with
  | none => (.missingUserId, db)
  | some bodyUid =>
    if quantity < 1 then (.invalidQuantity, db)
    else
      match db.cartItems.find? (fun c => c.id == cartItemId) with
      | none => (.notFound, db)
      | some cartItem =>
        if cartItem.userId != bodyUid then (.accessDenied, db)
        else
          match findProduct db cartItem.productId with
          | none => (.databaseError, db)
          | some product =>
            if product.stock < quantity then (.insufficientStock product.stock, db)
            else
              (.updated { cartItem with quantity := quantity },
                { db with cartItems := db.cartItems.map (fun c =>
                    if c.id == cartItemId then { cartItem with quantity := quantity }
                    else c) })

/-- Result of the cart-remove handler (`DELETE /api/cart/:id`). -/
inductive RemoveCartResult where
  | missingUserId
  | notFound
  | accessDenied
  | removed
deriving DecidableEq

/-- The cart-remove handler body (`DELETE /api/cart/:id`).  As with the
update handler, `authUserId` is only the authentication gate; the
ownership check compares against `userId` taken from the query string. -/
def removeCartItem (db : DB) (authUserId cartItemId : Nat)
    (queryUserId : Option Nat) : RemoveCartResult × DB :=
  match queryUserId with
  | none => (.missingUserId, db)
  | some queryUid =>
    match db.cartItems.find? (fun c => c.id == cartItemId) with
    | none => (.notFound, db)
    | some cartItem =>
      if cartItem.userId != queryUid then (.accessDenied, db)
      else (.removed, { db with cartItems := db.cartItems.filter (fun c => c.id != cartItemId) })

/-- Input of the product-create handler (all fields required there). -/
structure ProductCreateInput where
  name : String
  description : String
  price : ℚ
  stock : Int
  imageUrl : String
  brandId : Nat
  categoryId : Nat
deriving DecidableEq

/-- Result of the product-create handler. -/
inductive CreateProductResult where
  | created (p : Product)
  | badPrice
  | badStock
  | badBrand
  | badCategory
deriving DecidableEq

/-- The product-create handler body (admin-gated `createProduct` /
`POST /api/products`): price must be positive, stock a non-negative
integer, brand and category must exist; then the row is inserted. -/
def createProduct (db : DB) (input : ProductCreateInput) : CreateProductResult × DB :=
  if input.price ≤ 0 then (.badPrice, db)
  else if input.stock < 0 then (.badStock, db)
  else if !db.brands.contains input.brandId then (.badBrand, db)
  else if !db.categories.contains input.categoryId then (.badCategory, db)
  else
    (.created ⟨db.nextId, input.name, input.description, input.price, input.stock,
        input.imageUrl, input.brandId, input.categoryId⟩,
      { db with
        products := db.products ++ [⟨db.nextId, input.name, input.description,
          input.price, input.stock, input.imageUrl, input.brandId, input.categoryId⟩],
        nextId := db.nextId + 1 })

/-- Input of the product-update handler: every field optional. -/
structure ProductUpdateInput where
  name : Option String
  description : Option String
  price : Option ℚ
  stock : Option Int
  imageUrl : Option String
  brandId : Option Nat
  categoryId : Option Nat
deriving DecidableEq

/-- `prisma.product.update({ data: body })`: overwrite exactly the
provided fields. -/
def applyUpdate (p : Product) (body : ProductUpdateInput) : Product :=
  { p with
    name := body.name.getD p.name,
    description := body.description.getD p.description,
    price := body.price.getD p.price,
    stock := body.stock.getD p.stock,
    imageUrl := body.imageUrl.getD p.imageUrl,
    brandId := body.brandId.getD p.brandId,
    categoryId := body.categoryId.getD p.categoryId }

/-- Result of the product-update handler. -/
inductive UpdateProductResult where
  | updated
  | notFound
  | badPrice
  | badStock
  | badBrand
  | badCategory
deriving DecidableEq

/-- The product-update handler body (admin-gated `PUT /api/products/:id`):
404 if the product is missing; a provided price must be positive, a
provided stock non-negative, a provided brand/category must exist; then
the provided fields are written. -/
def updateProduct (db : DB) (pid : Nat) (body : ProductUpdateInput) :
    UpdateProductResult × DB :=
  if (findProduct db pid).isNone then (.notFound, db)
  else if body.price.any (fun pr => decide (pr ≤ 0)) then (.badPrice, db)
  else if body.stock.any (fun s => decide (s < 0)) then (.badStock, db)
  else if body.brandId.any (fun b => !db.brands.contains b) then (.badBrand, db)
  else if body.categoryId.any (fun c => !db.categories.contains c) then (.badCategory, db)
  else
    (.updated, { db with products := db.products.map (fun p =>
        if p.id == pid then applyUpdate p body else p) })

/-- Result of the product-delete handler. -/
inductive DeleteProductResult where
  | notFound
  | hasOrders
  | deleted
deriving DecidableEq

/-- The product-delete handler body (admin-gated `DELETE
/api/products/:id`): 404 if the product is missing; refused when
`prisma.orderItem.findFirst({ where: { productId } })` finds a row
("Cannot delete product with existing orders"); otherwise a transaction
deletes the product's cart items and the product row. -/
def deleteProduct (db : DB) (pid : Nat) : DeleteProductResult × DB :=
  if (findProduct db pid).isNone then (.notFound, db)
  else if (db.orderItems.find? (fun oi => oi.productId == pid)).isSome then
    (.hasOrders, db)
  else
    (.deleted, { db with
      cartItems := db.cartItems.filter (fun c => c.productId != pid),
      products := db.products.filter (fun p => p.id != pid) })

/-- The JWT payload the middleware reads. -/
structure JwtPayload where
  userId : Nat
deriving DecidableEq

/-- `authHeader.split(" ")[1]` guarded by `startsWith("Bearer ")`. -/
def bearerToken (h : String) : Option String :=
  if h.startsWith "Bearer " then some ((h.splitOn " ").getD 1 "") else none

/-- The `auth` middleware: extract the bearer token, return `null` when
the token is recorded in `InvalidToken` (before any JWT verification),
otherwise verify the JWT (`verify`, abstracting `jwt.verify`; `none`
models a thrown verification error) and look the user up. -/
def auth (db : DB) (authHeader : Option String)
    (verify : String → Option JwtPayload) : Option User :=
  match authHeader with
  | none => none
  | some h =>
    match bearerToken h with
    | none => none
    | some token =>
      if db.invalidTokens.contains token then none
      else
        match verify token with
        | none => none
        | some payload =>
          match db.users.find? (fun u => u.id == payload.userId) with
          | none => none
          | some user => some user

/-- The logout handler body (`POST /api/auth/logout`): when the caller
authenticates, record the presented bearer token in `InvalidToken`;
otherwise respond "Already logged out" and change nothing. -/
def logout (db : DB) (authHeader : Option String)
    (verify : String → Option JwtPayload) : DB :=
  match auth db authHeader verify with
  | none => db
  | some _ =>
    match authHeader with
    | none => db
    | some h =>
      match bearerToken h with
      | none => db
      | some token => { db with invalidTokens := db.invalidTokens ++ [token] }

/-- One request against the store: the operations modelled above. -/
inductive Step where
  | addItemStep (uid pid : Nat) (quantity : Int)
  | updateCartStep (authUserId cartItemId : Nat) (bodyUserId : Option Nat) (quantity : Int)
  | removeCartStep (authUserId cartItemId : Nat) (queryUserId : Option Nat)
  | checkoutStep (uid : Nat) (invoiceOutcome : Option String)
  | createProductStep (input : ProductCreateInput)
  | updateProductStep (pid : Nat) (body : ProductUpdateInput)
  | deleteProductStep (pid : Nat)
  | logoutStep (authHeader : Option String)

/-- Apply one request to the store, keeping only the resulting state. -/
def applyStep (verify : String → Option JwtPayload) (db : DB) : Step → DB
  | .addItemStep uid pid q => (addItem db uid pid q).2
  | .updateCartStep a cid b q => (updateCartItemQuantity db a cid b q).2
  | .removeCartStep a cid qu => (removeCartItem db a cid qu).2
  | .checkoutStep uid o => (checkout db uid o).2
  | .createProductStep input => (createProduct db input).2
  | .updateProductStep pid body => (updateProduct db pid body).2
  | .deleteProductStep pid => (deleteProduct db pid).2
  | .logoutStep h => logout db h verify

/-- Run a sequence of requests. -/
def runSteps (verify : String → Option JwtPayload) (db : DB) (steps : List Step) : DB :=
  steps.foldl (applyStep verify) db

/-- Every product row has a non-negative stock counter. -/
def stockNonneg (db : DB) : Prop :=
  ∀ p ∈ db.products, 0 ≤ p.stock

/-- Every order item's product reference points at an existing product row. -/
def orderItemRefsExist (db : DB) : Prop :=
  ∀ oi ∈ db.orderItems, ∃ p ∈ db.products, p.id = oi.productId

/-- Every cart line carries a positive quantity (established by the cart
handlers' validation). -/
def cartQuantitiesPos (db : DB) : Prop :=
  ∀ c ∈ db.cartItems, 1 ≤ c.quantity

/-- `existingQuantity` of the add handler: the quantity already in the
user's cart for the product, `0` when there is no such line. -/
def existingCartQuantity (db : DB) (uid pid : Nat) : Int :=
  match db.cartItems.find? (fun c => c.userId == uid && c.productId == pid) with
  | some c => c.quantity
  | none => 0

/-- Sum of `price * quantity` over a list of order items, folded exactly
as the checkout total is. -/
def orderItemsTotal (items : List OrderItem) : ℚ :=
  items.foldl (fun acc oi => acc + oi.price * (oi.quantity : ℚ)) 0

/-! ## Basic lemmas about the store operations -/

theorem findProduct_mem {db : DB} {pid : Nat} {p : Product}
    (h : findProduct db pid = some p) : p ∈ db.products ∧ p.id = pid := by
  refine ⟨List.mem_of_find?_eq_some h, ?_⟩
  simpa using List.find?_some h

theorem joinProducts_length {db : DB} :
    ∀ {items : List CartItem} {lines : List (CartItem × Product)},
      joinProducts db items = some lines → lines.length = items.length := by
  intro items
  induction items with
  | nil =>
    intro lines h
    simp only [joinProducts, Option.some.injEq] at h
    subst h
    rfl
  | cons c cs ih =>
    intro lines h
    unfold joinProducts at h
    cases hf : findProduct db c.productId with
    | none => rw [hf] at h; exact absurd h (by simp)
    | some p =>
      cases hr : joinProducts db cs with
      | none => rw [hf, hr] at h; exact absurd h (by simp)
      | some rest =>
        rw [hf, hr] at h
        simp only [Option.some.injEq] at h
        subst h
        simp [ih hr]

theorem joinProducts_mem {db : DB} :
    ∀ {items : List CartItem} {lines : List (CartItem × Product)},
      joinProducts db items = some lines →
      ∀ cp ∈ lines, cp.1 ∈ items ∧ findProduct db cp.1.productId = some cp.2 := by
  intro items
  induction items with
  | nil =>
    intro lines h cp hcp
    simp only [joinProducts, Option.some.injEq] at h
    subst h
    simp at hcp
  | cons c cs ih =>
    intro lines h cp hcp
    unfold joinProducts at h
    cases hf : findProduct db c.productId with
    | none => rw [hf] at h; exact absurd h (by simp)
    | some p =>
      cases hr : joinProducts db cs with
      | none => rw [hf, hr] at h; exact absurd h (by simp)
      | some rest =>
        rw [hf, hr] at h
        simp only [Option.some.injEq] at h
        subst h
        rcases List.mem_cons.mp hcp with hcp | hcp
        · subst hcp
          exact ⟨by simp, hf⟩
        · obtain ⟨h1, h2⟩ := ih hr cp hcp
          exact ⟨List.mem_cons_of_mem _ h1, h2⟩

theorem addItem_products (db : DB) (uid pid : Nat) (q : Int) :
    ((addItem db uid pid q).2).products = db.products := by
  unfold addItem
  repeat first | rfl | split

theorem addItem_orderItems (db : DB) (uid pid : Nat) (q : Int) :
    ((addItem db uid pid q).2).orderItems = db.orderItems := by
  unfold addItem
  repeat first | rfl | split

theorem addItem_invalidTokens (db : DB) (uid pid : Nat) (q : Int) :
    ((addItem db uid pid q).2).invalidTokens = db.invalidTokens := by
  unfold addItem
  repeat first | rfl | split

theorem updateCart_products (db : DB) (a cid : Nat) (b : Option Nat) (q : Int) :
    ((updateCartItemQuantity db a cid b q).2).products = db.products := by
  unfold updateCartItemQuantity
  repeat first | rfl | split

theorem updateCart_orderItems (db : DB) (a cid : Nat) (b : Option Nat) (q : Int) :
    ((updateCartItemQuantity db a cid b q).2).orderItems = db.orderItems := by
  unfold updateCartItemQuantity
  repeat first | rfl | split

theorem updateCart_invalidTokens (db : DB) (a cid : Nat) (b : Option Nat) (q : Int) :
    ((updateCartItemQuantity db a cid b q).2).invalidTokens = db.invalidTokens := by
  unfold updateCartItemQuantity
  repeat first | rfl | split

theorem removeCart_products (db : DB) (a cid : Nat) (qu : Option Nat) :
    ((removeCartItem db a cid qu).2).products = db.products := by
  unfold removeCartItem
  repeat first | rfl | split

theorem removeCart_orderItems (db : DB) (a cid : Nat) (qu : Option Nat) :
    ((removeCartItem db a cid qu).2).orderItems = db.orderItems := by
  unfold removeCartItem
  repeat first | rfl | split

theorem removeCart_invalidTokens (db : DB) (a cid : Nat) (qu : Option Nat) :
    ((removeCartItem db a cid qu).2).invalidTokens = db.invalidTokens := by
  unfold removeCartItem
  repeat first | rfl | split

theorem checkout_products (db : DB) (uid : Nat) (o : Option String) :
    ((checkout db uid o).2).products = db.products := by
  unfold checkout
  repeat first | rfl | split

theorem checkout_invalidTokens (db : DB) (uid : Nat) (o : Option String) :
    ((checkout db uid o).2).invalidTokens = db.invalidTokens := by
  unfold checkout
  repeat first | rfl | split

theorem createProduct_orderItems (db : DB) (input : ProductCreateInput) :
    ((createProduct db input).2).orderItems = db.orderItems := by
  unfold createProduct
  repeat first | rfl | split

theorem createProduct_invalidTokens (db : DB) (input : ProductCreateInput) :
    ((createProduct db input).2).invalidTokens = db.invalidTokens := by
  unfold createProduct
  repeat first | rfl | split

theorem updateProduct_orderItems (db : DB) (pid : Nat) (body : ProductUpdateInput) :
    ((updateProduct db pid body).2).orderItems = db.orderItems := by
  unfold updateProduct
  repeat first | rfl | split

theorem updateProduct_invalidTokens (db : DB) (pid : Nat) (body : ProductUpdateInput) :
    ((updateProduct db pid body).2).invalidTokens = db.invalidTokens := by
  unfold updateProduct
  repeat first | rfl | split

theorem deleteProduct_orderItems (db : DB) (pid : Nat) :
    ((deleteProduct db pid).2).orderItems = db.orderItems := by
  unfold deleteProduct
  repeat first | rfl | split

theorem deleteProduct_invalidTokens (db : DB) (pid : Nat) :
    ((deleteProduct db pid).2).invalidTokens = db.invalidTokens := by
  unfold deleteProduct
  repeat first | rfl | split

theorem logout_products (db : DB) (h : Option String)
    (verify : String → Option JwtPayload) :
    (logout db h verify).products = db.products := by
  unfold logout
  repeat first | split | rfl

theorem logout_orderItems (db : DB) (h : Option String)
    (verify : String → Option JwtPayload) :
    (logout db h verify).orderItems = db.orderItems := by
  unfold logout
  repeat first | split | rfl

theorem logout_invalidTokens_mono (db : DB) (h : Option String)
    (verify : String → Option JwtPayload) {t : String}
    (ht : t ∈ db.invalidTokens) : t ∈ (logout db h verify).invalidTokens := by
  unfold logout
  repeat first | split | exact ht | exact List.mem_append_left _ ht

/-- Characterization of a successful checkout: it went through the
non-empty cart, the product join, the stock validation and a successful
gateway call, and the result is exactly the committed order with the cart
cleared. -/
theorem checkout_success_spec {db : DB} {uid : Nat} {o : Option String}
    {oid : Nat} {url : String} {amt : ℚ}
    (hres : (checkout db uid o).1 = .success oid url amt) :
    ∃ lines, joinProducts db (userCart db uid) = some lines ∧
      (userCart db uid).isEmpty = false ∧
      lines.find? stockShort = none ∧
      o = some url ∧ oid = db.nextId ∧ amt = cartTotal lines ∧
      checkout db uid o =
        (.success db.nextId url (cartTotal lines),
          clearCart (checkoutCommit db uid lines) uid) := by
  unfold checkout at hres
  split at hres
  · exact absurd hres (by simp)
  next hne =>
    split at hres
    next hjoin => exact absurd hres (by simp)
    next lines hjoin =>
      split at hres
      next cp hfind => exact absurd hres (by simp)
      next hfind =>
        split at hres
        · exact absurd hres (by simp)
        next url0 =>
          simp only [CheckoutResult.success.injEq] at hres
          obtain ⟨h1, h2, h3⟩ := hres
          refine ⟨lines, hjoin, by simpa using hne, hfind, by rw [h2], h1.symm, h3.symm, ?_⟩
          unfold checkout
          rw [Bool.not_eq_true] at hne
          simp only [hne, Bool.false_eq_true, if_false, hjoin, hfind, h2]

/-- Characterization of a checkout that failed at the gateway: the order
and its items were already committed and the cart was not cleared. -/
theorem checkout_gateway_spec {db : DB} {uid : Nat}
    (hres : (checkout db uid none).1 = .gatewayError) :
    ∃ lines, joinProducts db (userCart db uid) = some lines ∧
      (userCart db uid).isEmpty = false ∧
      lines.find? stockShort = none ∧
      checkout db uid none = (.gatewayError, checkoutCommit db uid lines) := by
  unfold checkout at hres
  split at hres
  · exact absurd hres (by simp)
  next hne =>
    split at hres
    next hjoin => exact absurd hres (by simp)
    next lines hjoin =>
      split at hres
      next cp hfind => exact absurd hres (by simp)
      next hfind =>
        refine ⟨lines, hjoin, by simpa using hne, hfind, ?_⟩
        unfold checkout
        rw [Bool.not_eq_true] at hne
        simp only [hne, Bool.false_eq_true, if_false, hjoin, hfind]

/-! ## Example stores used by the witnesses -/

/-- Example product rows (prices 10 and 5.50, stocks 5 and 3). -/
def productA : Product := ⟨100, "Laptop", "a laptop", 10, 5, "imgA", 1, 1⟩

def productB : Product := ⟨101, "Mouse", "a mouse", 11 / 2, 3, "imgB", 1, 1⟩

def exUser : User := ⟨1, "alice@shop.test", "Alice", Role.CUSTOMER⟩

/-- Store with user 1's cart holding 2 laptops and 1 mouse. -/
def exDB : DB :=
  ⟨[productA, productB], [⟨10, 1, 100, 2⟩, ⟨11, 1, 101, 1⟩], [], [], [exUser],
    [1], [1], [], 20⟩

/-- Store where user 1 requests 7 laptops with only 5 in stock. -/
def exDB2 : DB :=
  ⟨[productA, productB], [⟨12, 1, 100, 7⟩], [], [], [exUser], [1], [1], [], 20⟩

/-- Store for the oversell scenario: one unit in stock, two customers
with one unit each in their carts. -/
def oversellDB : DB :=
  ⟨[⟨100, "Laptop", "a laptop", 10, 1, "imgA", 1, 1⟩],
    [⟨10, 1, 100, 1⟩, ⟨11, 2, 100, 1⟩], [], [], [], [1], [1], [], 20⟩

/-! ## Claims -/

/-- C8: Checkout on an empty cart (the requesting user has no CartItems)
fails with EmptyCart and creates no Order. -/
theorem checkout_empty_cart_fails (db : DB) (uid : Nat) (o : Option String)
    (hempty : userCart db uid = []) :
    (checkout db uid o).1 = .emptyCart ∧
    (checkout db uid o).2 = db ∧
    (checkout db uid o).2.orders = db.orders := by
  unfold checkout
  rw [hempty]
  simp

/-- Witness for `checkout_empty_cart_fails`: user 2 of `exDB` has no cart items. -/
theorem checkout_empty_cart_fails_witness :
    (checkout exDB 2 (some "inv")).1 = .emptyCart ∧
    (checkout exDB 2 (some "inv")).2 = exDB ∧
    (checkout exDB 2 (some "inv")).2.orders = exDB.orders :=
  checkout_empty_cart_fails exDB 2 (some "inv") (by with_unfolding_all decide)

/-- C2: a checkout attempt in which some cart line exceeds the product's
current stock aborts with an InsufficientStock error naming the offending
product, its available stock and the requested quantity, and the store —
in particular its Order and OrderItem tables — is unchanged. -/
theorem checkout_insufficient_stock_aborts (db : DB) (uid : Nat) (o : Option String)
    (lines : List (CartItem × Product))
    (hjoin : joinProducts db (userCart db uid) = some lines)
    (hex : ∃ cp ∈ lines, cp.2.stock < cp.1.quantity) :
    (∃ cp ∈ lines, cp.2.stock < cp.1.quantity ∧
      (checkout db uid o).1 =
        .insufficientStock cp.2.id cp.2.name cp.2.stock cp.1.quantity) ∧
    (checkout db uid o).2 = db ∧
    (checkout db uid o).2.orders = db.orders ∧
    (checkout db uid o).2.orderItems = db.orderItems := by
  obtain ⟨cp0, hmem0, hlt0⟩ := hex
  have hne : (userCart db uid).isEmpty = false := by
    cases hcart : userCart db uid with
    | nil =>
      rw [hcart] at hjoin
      simp only [joinProducts, Option.some.injEq] at hjoin
      subst hjoin
      simp at hmem0
    | cons a l => simp
  cases hf : lines.find? stockShort with
  | none =>
    rw [List.find?_eq_none] at hf
    exact absurd (decide_eq_true hlt0) (hf cp0 hmem0)
  | some cp =>
    have hcp_mem := List.mem_of_find?_eq_some hf
    have hb : stockShort cp = true := List.find?_some hf
    rw [stockShort, decide_eq_true_eq] at hb
    have hlt : cp.2.stock < cp.1.quantity := hb
    have hck : checkout db uid o =
        (.insufficientStock cp.2.id cp.2.name cp.2.stock cp.1.quantity, db) := by
      unfold checkout
      simp only [hne, Bool.false_eq_true, if_false, hjoin, hf]
    exact ⟨⟨cp, hcp_mem, hlt, by rw [hck]⟩, by rw [hck], by rw [hck], by rw [hck]⟩

/-- Witness for `checkout_insufficient_stock_aborts`: in `exDB2` user 1
requests 7 laptops against a stock of 5. -/
theorem checkout_insufficient_stock_aborts_witness :
    (∃ cp ∈ [((⟨12, 1, 100, 7⟩ : CartItem), productA)], cp.2.stock < cp.1.quantity ∧
      (checkout exDB2 1 none).1 =
        .insufficientStock cp.2.id cp.2.name cp.2.stock cp.1.quantity) ∧
    (checkout exDB2 1 none).2 = exDB2 ∧
    (checkout exDB2 1 none).2.orders = exDB2.orders ∧
    (checkout exDB2 1 none).2.orderItems = exDB2.orderItems :=
  checkout_insufficient_stock_aborts exDB2 1 none
    [((⟨12, 1, 100, 7⟩ : CartItem), productA)] (by decide) (by with_unfolding_all decide)

/-- C6: when the gateway invoice call fails during checkout, the PENDING
order and its items are already persisted and are not rolled back, the
failure is surfaced as an error result, and the user's cart items are not
deleted. -/
theorem checkout_gateway_failure_keeps_order (db : DB) (uid : Nat)
    (hres : (checkout db uid none).1 = .gatewayError) :
    ∃ lines, joinProducts db (userCart db uid) = some lines ∧
      (checkout db uid none).2.orders =
        db.orders ++ [⟨db.nextId, uid, cartTotal lines, PaymentStatus.PENDING, "XENDIT"⟩] ∧
      (checkout db uid none).2.orderItems =
        db.orderItems ++ lines.map (toOrderItem db.nextId) ∧
      (checkout db uid none).2.cartItems = db.cartItems := by
  obtain ⟨lines, hjoin, hne, hfind, heq⟩ := checkout_gateway_spec hres
  exact ⟨lines, hjoin, by rw [heq]; rfl, by rw [heq]; rfl, by rw [heq]; rfl⟩

/-- Witness for `checkout_gateway_failure_keeps_order`: checkout of user
1 of `exDB` with a failing gateway call. -/
theorem checkout_gateway_failure_keeps_order_witness :
    ∃ lines, joinProducts exDB (userCart exDB 1) = some lines ∧
      (checkout exDB 1 none).2.orders =
        exDB.orders ++ [⟨exDB.nextId, 1, cartTotal lines, PaymentStatus.PENDING, "XENDIT"⟩] ∧
      (checkout exDB 1 none).2.orderItems =
        exDB.orderItems ++ lines.map (toOrderItem exDB.nextId) ∧
      (checkout exDB 1 none).2.cartItems = exDB.cartItems :=
  checkout_gateway_failure_keeps_order exDB 1 (by with_unfolding_all decide)

/-- C1: a successful checkout creates an order whose totalAmount equals
the sum of its order items' price times quantity (the items snapshotting
the cart lines), leaves the user's cart empty, and the response carries
the order id, the invoice redirect URL and the total amount. -/
theorem checkout_success_order_consistent (db : DB) (uid : Nat) (o : Option String)
    (oid : Nat) (url : String) (amt : ℚ)
    (hfresh : ∀ oi ∈ db.orderItems, oi.orderId ≠ db.nextId)
    (hres : (checkout db uid o).1 = .success oid url amt) :
    (∃ ord ∈ (checkout db uid o).2.orders, ord.id = oid ∧ ord.totalAmount = amt) ∧
    orderItemsTotal (((checkout db uid o).2.orderItems).filter
      (fun oi => oi.orderId == oid)) = amt ∧
    userCart ((checkout db uid o).2) uid = [] ∧
    o = some url := by
  obtain ⟨lines, hjoin, hne, hfind, ho, hoid, hamt, heq⟩ := checkout_success_spec hres
  subst hoid
  subst hamt
  refine ⟨?_, ?_, ?_, ho⟩
  · rw [heq]
    exact ⟨⟨db.nextId, uid, cartTotal lines, PaymentStatus.PENDING, "XENDIT"⟩,
      by simp [clearCart, checkoutCommit], rfl, rfl⟩
  · rw [heq]
    show orderItemsTotal ((db.orderItems ++ lines.map (toOrderItem db.nextId)).filter
      (fun oi => oi.orderId == db.nextId)) = cartTotal lines
    rw [List.filter_append]
    have h1 : db.orderItems.filter (fun oi => oi.orderId == db.nextId) = [] := by
      rw [List.filter_eq_nil_iff]
      intro oi hoi
      simpa using hfresh oi hoi
    have h2 : (lines.map (toOrderItem db.nextId)).filter
        (fun oi => oi.orderId == db.nextId) = lines.map (toOrderItem db.nextId) := by
      rw [List.filter_eq_self]
      intro oi hoi
      obtain ⟨cp, hcp, rfl⟩ := List.mem_map.mp hoi
      simp [toOrderItem]
    rw [h1, h2, List.nil_append]
    unfold orderItemsTotal cartTotal
    rw [List.foldl_map]
    rfl
  · rw [heq]
    show ((db.cartItems.filter (fun c => c.userId != uid)).filter
      (fun c => c.userId == uid)) = []
    rw [List.filter_filter, List.filter_eq_nil_iff]
    intro c hc
    simp [bne]

/-- Witness for `checkout_success_order_consistent`: checkout of user 1
of `exDB` (2 laptops at 10, 1 mouse at 5.50, total 25.50 = 51/2). -/
theorem checkout_success_order_consistent_witness :
    (∃ ord ∈ (checkout exDB 1 (some "inv")).2.orders, ord.id = 20 ∧
      ord.totalAmount = 51 / 2) ∧
    orderItemsTotal (((checkout exDB 1 (some "inv")).2.orderItems).filter
      (fun oi => oi.orderId == 20)) = 51 / 2 ∧
    userCart ((checkout exDB 1 (some "inv")).2) 1 = [] ∧
    (some "inv" : Option String) = some "inv" :=
  checkout_success_order_consistent exDB 1 (some "inv") 20 "inv" (51 / 2)
    (by decide) (by with_unfolding_all decide)

/-- C4 (failing in the code): checkout never decrements stock, so two
checkout attempts that jointly oversell a product both succeed: with
stock 1 and two customers each requesting quantity 1, customer 1's
checkout succeeds and customer 2's checkout against the resulting store
succeeds as well, leaving two orders — refuting "exactly one attempt
succeeds and the other fails with InsufficientStock". -/
theorem double_checkout_oversells :
    (checkout oversellDB 1 (some "inv1")).1 = .success 20 "inv1" 10 ∧
    (checkout (checkout oversellDB 1 (some "inv1")).2 2 (some "inv2")).1 =
      .success 21 "inv2" 10 ∧
    ((checkout (checkout oversellDB 1 (some "inv1")).2 2 (some "inv2")).2).orders.length = 2 := by
  with_unfolding_all decide

/-- C7: the cart-add operation rejects a quantity below 1 with a
validation error and a missing product with NotFound; when the product
exists it succeeds if and only if the quantity already in the user's cart
plus the requested quantity is at most the product's stock, a failure
leaves the store unchanged, and a success creates the cart line on first
add or increments its quantity on a subsequent add. -/
theorem addItem_spec (db : DB) (uid pid : Nat) (q : Int) (product : Product)
    (hcart : cartQuantitiesPos db) :
    (q < 1 → addItem db uid pid q = (.invalidInput, db)) ∧
    (1 ≤ q → findProduct db pid = none → addItem db uid pid q = (.notFound, db)) ∧
    (1 ≤ q → findProduct db pid = some product →
      ((addItem db uid pid q).1.isSuccess = true ↔
        existingCartQuantity db uid pid + q ≤ product.stock) ∧
      ((addItem db uid pid q).1.isSuccess = false → (addItem db uid pid q).2 = db) ∧
      (db.cartItems.find? (fun c => c.userId == uid && c.productId == pid) = none →
        (addItem db uid pid q).1.isSuccess = true →
        (addItem db uid pid q).2.cartItems = db.cartItems ++ [⟨db.nextId, uid, pid, q⟩]) ∧
      (∀ e, db.cartItems.find? (fun c => c.userId == uid && c.productId == pid) = some e →
        (addItem db uid pid q).1.isSuccess = true →
        (addItem db uid pid q).1 = .updated ⟨e.id, e.userId, e.productId, e.quantity + q⟩)) := by
  refine ⟨?_, ?_, ?_⟩
  · intro hq
    unfold addItem
    rw [if_pos hq]
  · intro hq hnf
    unfold addItem
    rw [if_neg (by omega : ¬ q < 1), hnf]
  · intro hq hp
    cases hfind : db.cartItems.find? (fun c => c.userId == uid && c.productId == pid) with
    | none =>
      by_cases hs : product.stock < q
      · unfold addItem existingCartQuantity
        simp only [if_neg (by omega : ¬ q < 1), hp, hfind, if_pos hs]
        refine ⟨by simp [AddItemResult.isSuccess]; omega, fun _ => trivial, ?_, by simp⟩
        simp [AddItemResult.isSuccess]
      · unfold addItem existingCartQuantity
        simp only [if_neg (by omega : ¬ q < 1), hp, hfind, if_neg hs]
        refine ⟨by simp [AddItemResult.isSuccess]; omega, ?_, fun _ _ => trivial, by simp⟩
        simp [AddItemResult.isSuccess]
    | some e =>
      have he1 : 1 ≤ e.quantity := hcart e (List.mem_of_find?_eq_some hfind)
      by_cases hs : product.stock < q
      · unfold addItem existingCartQuantity
        simp only [if_neg (by omega : ¬ q < 1), hp, hfind, if_pos hs]
        refine ⟨by simp [AddItemResult.isSuccess]; omega, fun _ => trivial, by simp, ?_⟩
        simp [AddItemResult.isSuccess]
      · by_cases hs2 : product.stock < e.quantity + q
        · unfold addItem existingCartQuantity
          simp only [if_neg (by omega : ¬ q < 1), hp, hfind, if_neg hs, if_pos hs2]
          refine ⟨by simp [AddItemResult.isSuccess]; omega, fun _ => trivial, by simp, ?_⟩
          simp [AddItemResult.isSuccess]
        · unfold addItem existingCartQuantity
          simp only [if_neg (by omega : ¬ q < 1), hp, hfind, if_neg hs, if_neg hs2]
          refine ⟨by simp [AddItemResult.isSuccess]; omega,
            by simp [AddItemResult.isSuccess], by simp, ?_⟩
          intro e' he' _
          rw [Option.some.injEq] at he'
          subst he'
          rfl

/-- Witness for `addItem_spec`: user 1 of `exDB` already holds 2 laptops
(stock 5) and adds one more, which succeeds. -/
theorem addItem_spec_witness : (addItem exDB 1 100 1).1.isSuccess = true := by
  have h := addItem_spec exDB 1 100 1 productA
    (by unfold cartQuantitiesPos; with_unfolding_all decide)
  exact ((h.2.2 (by decide) (by with_unfolding_all decide)).1).mpr
    (by with_unfolding_all decide)

/-- Store for the ownership counterexample: cart item 10 is owned by user
2, while user 1 is the authenticated caller. -/
def cexDB : DB :=
  ⟨[productA, productB], [⟨10, 2, 100, 1⟩], [], [],
    [exUser, ⟨2, "bob@shop.test", "Bob", Role.CUSTOMER⟩], [1], [1], [], 20⟩

/-- C5 fails on the code: both cart handlers check ownership against the
request-supplied userId (body field for update, query parameter for
remove), not against the authenticated caller.  Here the authenticated
caller is user 1 while cart item 10 is owned by user 2; a request
supplying userId 2 succeeds and mutates or deletes the item owned by
someone other than the caller, instead of failing with AccessDenied. -/
theorem cart_ops_not_scoped_to_auth_user :
    (cexDB.cartItems.find? (fun c => c.id == 10)) = some ⟨10, 2, 100, 1⟩ ∧
    (2 : Nat) ≠ 1 ∧
    (updateCartItemQuantity cexDB 1 10 (some 2) 3).1 = .updated ⟨10, 2, 100, 3⟩ ∧
    (updateCartItemQuantity cexDB 1 10 (some 2) 3).2.cartItems = [⟨10, 2, 100, 3⟩] ∧
    (removeCartItem cexDB 1 10 (some 2)).1 = .removed ∧
    (removeCartItem cexDB 1 10 (some 2)).2.cartItems = [] := by
  with_unfolding_all decide

/-- C5 amended: the ownership check of cart updateQuantity and removeItem
compares the cart item's owner against the request-supplied userId, not
the authenticated caller: whenever the supplied userId differs from the
item's owner the operation fails with AccessDenied (403) and the store is
unchanged, regardless of who is authenticated. -/
theorem cart_ops_supplied_userId_scope (db : DB) (authUserId cartItemId : Nat)
    (suppliedUserId : Nat) (q : Int) (item : CartItem)
    (hq : 1 ≤ q)
    (hfind : db.cartItems.find? (fun c => c.id == cartItemId) = some item)
    (hneq : item.userId ≠ suppliedUserId) :
    updateCartItemQuantity db authUserId cartItemId (some suppliedUserId) q =
      (.accessDenied, db) ∧
    removeCartItem db authUserId cartItemId (some suppliedUserId) = (.accessDenied, db) := by
  have hb : (item.userId != suppliedUserId) = true := by simpa using hneq
  constructor
  · unfold updateCartItemQuantity
    simp [hfind, hb, show ¬ q < 1 by omega]
  · unfold removeCartItem
    simp [hfind, hb]

/-- Witness for `cart_ops_supplied_userId_scope`: a request on item 10 of
`cexDB` (owned by user 2) supplying userId 3 is denied. -/
theorem cart_ops_supplied_userId_scope_witness :
    updateCartItemQuantity cexDB 1 10 (some 3) 2 = (.accessDenied, cexDB) ∧
    removeCartItem cexDB 1 10 (some 3) = (.accessDenied, cexDB) :=
  cart_ops_supplied_userId_scope cexDB 1 10 3 2 ⟨10, 2, 100, 1⟩
    (by decide) (by with_unfolding_all decide) (by decide)

/-! ## Invariant preservation over request sequences -/

theorem stockNonneg_of_products_eq {db db' : DB}
    (h : db'.products = db.products) (hs : stockNonneg db) : stockNonneg db' := by
  intro p hp
  exact hs p (h ▸ hp)

theorem createProduct_stockNonneg (db : DB) (input : ProductCreateInput)
    (hs : stockNonneg db) : stockNonneg ((createProduct db input).2) := by
  unfold createProduct
  split
  · exact hs
  next h1 =>
    split
    · exact hs
    next h2 =>
      split
      · exact hs
      next h3 =>
        split
        · exact hs
        next h4 =>
          intro p hp
          rcases List.mem_append.mp hp with hmem | hmem
          · exact hs p hmem
          · rcases List.mem_singleton.mp hmem with rfl
            show (0 : Int) ≤ input.stock
            omega

theorem updateProduct_stockNonneg (db : DB) (pid : Nat) (body : ProductUpdateInput)
    (hs : stockNonneg db) : stockNonneg ((updateProduct db pid body).2) := by
  unfold updateProduct
  split
  · exact hs
  next h1 =>
    split
    · exact hs
    next h2 =>
      split
      · exact hs
      next h3 =>
        split
        · exact hs
        next h4 =>
          split
          · exact hs
          next h5 =>
            intro p hp
            rcases List.mem_map.mp hp with ⟨p0, hp0, rfl⟩
            by_cases hid : (p0.id == pid) = true
            · rw [if_pos hid]
              show (0 : Int) ≤ body.stock.getD p0.stock
              cases hb : body.stock with
              | none => simpa using hs p0 hp0
              | some s =>
                rw [hb] at h3
                simp [Option.any] at h3
                simpa using h3
            · rw [if_neg hid]
              exact hs p0 hp0

theorem deleteProduct_stockNonneg (db : DB) (pid : Nat)
    (hs : stockNonneg db) : stockNonneg ((deleteProduct db pid).2) := by
  unfold deleteProduct
  split
  · exact hs
  split
  · exact hs
  intro p hp
  exact hs p (List.mem_of_mem_filter hp)

theorem applyStep_stockNonneg (verify : String → Option JwtPayload) (db : DB) (s : Step)
    (hs : stockNonneg db) : stockNonneg (applyStep verify db s) := by
  cases s with
  | addItemStep uid pid q =>
    exact stockNonneg_of_products_eq (addItem_products db uid pid q) hs
  | updateCartStep a cid b q =>
    exact stockNonneg_of_products_eq (updateCart_products db a cid b q) hs
  | removeCartStep a cid qu =>
    exact stockNonneg_of_products_eq (removeCart_products db a cid qu) hs
  | checkoutStep uid o =>
    exact stockNonneg_of_products_eq (checkout_products db uid o) hs
  | createProductStep input => exact createProduct_stockNonneg db input hs
  | updateProductStep pid body => exact updateProduct_stockNonneg db pid body hs
  | deleteProductStep pid => exact deleteProduct_stockNonneg db pid hs
  | logoutStep h => exact stockNonneg_of_products_eq (logout_products db h verify) hs

theorem runSteps_stockNonneg (verify : String → Option JwtPayload) (steps : List Step) :
    ∀ db, stockNonneg db → stockNonneg (runSteps verify db steps) := by
  induction steps with
  | nil => exact fun db hs => hs
  | cons s rest ih => exact fun db hs => ih _ (applyStep_stockNonneg verify db s hs)

theorem refs_of_eq {db db' : DB} (hp : db'.products = db.products)
    (ho : db'.orderItems = db.orderItems) (h : orderItemRefsExist db) :
    orderItemRefsExist db' := by
  intro oi hoi
  rw [ho] at hoi
  rw [hp]
  exact h oi hoi

theorem checkout_refs (db : DB) (uid : Nat) (o : Option String)
    (h : orderItemRefsExist db) : orderItemRefsExist ((checkout db uid o).2) := by
  unfold checkout
  split
  · exact h
  next hne =>
    split
    · exact h
    next lines hlines =>
      split
      · exact h
      next hfind =>
        have hcommit : orderItemRefsExist (checkoutCommit db uid lines) := by
          intro oi hoi
          rcases List.mem_append.mp hoi with hold | hnew
          · obtain ⟨p, hpmem, hpid⟩ := h oi hold
            exact ⟨p, hpmem, hpid⟩
          · rcases List.mem_map.mp hnew with ⟨cp, hcp, rfl⟩
            obtain ⟨_, hfp⟩ := joinProducts_mem hlines cp hcp
            obtain ⟨hpmem, hpid⟩ := findProduct_mem hfp
            exact ⟨cp.2, hpmem, hpid⟩
        split
        · exact hcommit
        · exact hcommit

theorem createProduct_refs (db : DB) (input : ProductCreateInput)
    (h : orderItemRefsExist db) : orderItemRefsExist ((createProduct db input).2) := by
  unfold createProduct
  repeat first | exact h | split
  intro oi hoi
  obtain ⟨p, hpmem, hpid⟩ := h oi hoi
  exact ⟨p, List.mem_append_left _ hpmem, hpid⟩

theorem updateProduct_refs (db : DB) (pid : Nat) (body : ProductUpdateInput)
    (h : orderItemRefsExist db) : orderItemRefsExist ((updateProduct db pid body).2) := by
  unfold updateProduct
  repeat first | exact h | split
  intro oi hoi
  obtain ⟨p, hpmem, hpid⟩ := h oi hoi
  refine ⟨if (p.id == pid) = true then applyUpdate p body else p,
    List.mem_map_of_mem _ hpmem, ?_⟩
  by_cases hid : (p.id == pid) = true
  · rw [if_pos hid]
    exact hpid
  · rw [if_neg hid]
    exact hpid

theorem deleteProduct_refs (db : DB) (pid : Nat)
    (h : orderItemRefsExist db) : orderItemRefsExist ((deleteProduct db pid).2) := by
  unfold deleteProduct
  split
  · exact h
  next hfound =>
    split
    · exact h
    next hno =>
      intro oi hoi
      obtain ⟨p, hpmem, hpid⟩ := h oi hoi
      have hnone : db.orderItems.find? (fun x => x.productId == pid) = none := by
        cases hf : db.orderItems.find? (fun x => x.productId == pid) with
        | none => rfl
        | some x => rw [hf] at hno; simp at hno
      rw [List.find?_eq_none] at hnone
      have hne : oi.productId ≠ pid := by simpa using hnone oi hoi
      refine ⟨p, List.mem_filter.mpr ⟨hpmem, by simpa [hpid] using hne⟩, hpid⟩

theorem applyStep_refs (verify : String → Option JwtPayload) (db : DB) (s : Step)
    (h : orderItemRefsExist db) : orderItemRefsExist (applyStep verify db s) := by
  cases s with
  | addItemStep uid pid q =>
    exact refs_of_eq (addItem_products db uid pid q) (addItem_orderItems db uid pid q) h
  | updateCartStep a cid b q =>
    exact refs_of_eq (updateCart_products db a cid b q) (updateCart_orderItems db a cid b q) h
  | removeCartStep a cid qu =>
    exact refs_of_eq (removeCart_products db a cid qu) (removeCart_orderItems db a cid qu) h
  | checkoutStep uid o => exact checkout_refs db uid o h
  | createProductStep input => exact createProduct_refs db input h
  | updateProductStep pid body => exact updateProduct_refs db pid body h
  | deleteProductStep pid => exact deleteProduct_refs db pid h
  | logoutStep hd => exact refs_of_eq (logout_products db hd verify) (logout_orderItems db hd verify) h

theorem runSteps_refs (verify : String → Option JwtPayload) (steps : List Step) :
    ∀ db, orderItemRefsExist db → orderItemRefsExist (runSteps verify db steps) := by
  induction steps with
  | nil => exact fun db h => h
  | cons s rest ih => exact fun db h => ih _ (applyStep_refs verify db s h)

theorem applyStep_invalidTokens_mono (verify : String → Option JwtPayload) (db : DB)
    (s : Step) {t : String} (ht : t ∈ db.invalidTokens) :
    t ∈ (applyStep verify db s).invalidTokens := by
  cases s with
  | addItemStep uid pid q =>
    show t ∈ ((addItem db uid pid q).2).invalidTokens
    rw [addItem_invalidTokens]
    exact ht
  | updateCartStep a cid b q =>
    show t ∈ ((updateCartItemQuantity db a cid b q).2).invalidTokens
    rw [updateCart_invalidTokens]
    exact ht
  | removeCartStep a cid qu =>
    show t ∈ ((removeCartItem db a cid qu).2).invalidTokens
    rw [removeCart_invalidTokens]
    exact ht
  | checkoutStep uid o =>
    show t ∈ ((checkout db uid o).2).invalidTokens
    rw [checkout_invalidTokens]
    exact ht
  | createProductStep input =>
    show t ∈ ((createProduct db input).2).invalidTokens
    rw [createProduct_invalidTokens]
    exact ht
  | updateProductStep pid body =>
    show t ∈ ((updateProduct db pid body).2).invalidTokens
    rw [updateProduct_invalidTokens]
    exact ht
  | deleteProductStep pid =>
    show t ∈ ((deleteProduct db pid).2).invalidTokens
    rw [deleteProduct_invalidTokens]
    exact ht
  | logoutStep hd => exact logout_invalidTokens_mono db hd verify ht

theorem runSteps_invalidTokens_mono (verify : String → Option JwtPayload)
    (steps : List Step) : ∀ db, ∀ {t : String}, t ∈ db.invalidTokens →
      t ∈ (runSteps verify db steps).invalidTokens := by
  induction steps with
  | nil => intro db t ht; exact ht
  | cons s rest ih =>
    intro db t ht
    exact ih _ (applyStep_invalidTokens_mono verify db s ht)

theorem auth_revoked (db : DB) (h t : String) (verify : String → Option JwtPayload)
    (hb : bearerToken h = some t) (ht : t ∈ db.invalidTokens) :
    auth db (some h) verify = none := by
  have hc : db.invalidTokens.contains t = true := List.elem_eq_true_of_mem ht
  unfold auth
  simp only [hb, hc, if_true]

theorem logout_records_token (db : DB) (h t : String) (u : User)
    (verify : String → Option JwtPayload)
    (hb : bearerToken h = some t)
    (hauth : auth db (some h) verify = some u) :
    t ∈ (logout db (some h) verify).invalidTokens := by
  unfold logout
  simp only [hauth, hb]
  exact List.mem_append_right _ (by simp)

/-- C3: stock counters never go negative: starting from a store where
every product's stock is non-negative, any sequence of cart, checkout,
logout and administrative product operations preserves that; moreover
checkout performs no stock decrement at all (the product table is
untouched), and product create/update reject negative stock values
(captured by the preservation proof for those steps). -/
theorem stock_never_negative (verify : String → Option JwtPayload) (db : DB)
    (steps : List Step) (hs : stockNonneg db) :
    stockNonneg (runSteps verify db steps) ∧
    ∀ uid o, ((checkout db uid o).2).products = db.products :=
  ⟨runSteps_stockNonneg verify steps db hs, fun uid o => checkout_products db uid o⟩

/-- Witness for `stock_never_negative`: a concrete request sequence
(add to cart, checkout, delete a product) against `exDB`. -/
theorem stock_never_negative_witness :
    stockNonneg (runSteps (fun _ => none) exDB
      [Step.addItemStep 1 100 1, Step.checkoutStep 1 (some "inv"),
        Step.deleteProductStep 101]) ∧
    ((checkout exDB 1 (some "inv")).2).products = exDB.products := by
  have h := stock_never_negative (fun _ => none) exDB
    [Step.addItemStep 1 100 1, Step.checkoutStep 1 (some "inv"),
      Step.deleteProductStep 101]
    (by unfold stockNonneg; with_unfolding_all decide)
  exact ⟨h.1, h.2 1 (some "inv")⟩

/-- Store with an existing order: order 5 of user 1 holds one order item
referencing product 100. -/
def exDB3 : DB :=
  ⟨[productA, productB], [], [⟨5, 1, 20, PaymentStatus.PENDING, "XENDIT"⟩],
    [⟨5, 100, 10, 2⟩], [exUser], [1], [1], [], 30⟩

/-- C9: deleting a product that some OrderItem references is refused
("Cannot delete product with existing orders") with no rows removed, and
consequently the invariant that every OrderItem's product reference
points at an existing Product is preserved by every request sequence. -/
theorem product_delete_refused_refs_preserved (verify : String → Option JwtPayload)
    (db : DB) (steps : List Step) (pid : Nat)
    (hrefs : orderItemRefsExist db) :
    ((∃ oi ∈ db.orderItems, oi.productId = pid) →
      (findProduct db pid).isSome = true →
      deleteProduct db pid = (.hasOrders, db)) ∧
    orderItemRefsExist (runSteps verify db steps) := by
  constructor
  · rintro ⟨oi, hoi, hpid⟩ hfound
    have hn : (findProduct db pid).isNone = false := by
      cases hopt : findProduct db pid with
      | none => rw [hopt] at hfound; exact absurd hfound (by simp)
      | some p => rfl
    have hsome : (db.orderItems.find? (fun x => x.productId == pid)).isSome = true := by
      cases hf : db.orderItems.find? (fun x => x.productId == pid) with
      | some x => rfl
      | none =>
        rw [List.find?_eq_none] at hf
        exact absurd (by simp [hpid]) (hf oi hoi)
    unfold deleteProduct
    rw [hn, hsome]
    simp
  · exact runSteps_refs verify steps db hrefs

/-- Witness for `product_delete_refused_refs_preserved`: deleting product
100 of `exDB3`, which order 5 references, is refused and leaves the store
unchanged. -/
theorem product_delete_refused_refs_preserved_witness :
    deleteProduct exDB3 100 = (.hasOrders, exDB3) ∧
    orderItemRefsExist (runSteps (fun _ => none) exDB3 [Step.deleteProductStep 100]) := by
  have h := product_delete_refused_refs_preserved (fun _ => none) exDB3
    [Step.deleteProductStep 100] 100
    (by unfold orderItemRefsExist; with_unfolding_all decide)
  exact ⟨h.1 (by with_unfolding_all decide) (by with_unfolding_all decide), h.2⟩

/-- JWT verifier used by the token witnesses: accepts exactly the token
"tok1" as belonging to user 1. -/
def exVerify : String → Option JwtPayload :=
  fun tok => if tok == "tok1" then some ⟨1⟩ else none

/-- C10: once logout records a bearer token in the InvalidToken store, it
stays recorded across any later request sequence, and the auth middleware
rejects it (returns null) regardless of the JWT verifier — i.e. before
any JWT verification — so a revoked token is never accepted again. -/
theorem revoked_token_never_accepted (db : DB) (h t : String) (u : User)
    (verify : String → Option JwtPayload)
    (hb : bearerToken h = some t)
    (hauth : auth db (some h) verify = some u) :
    t ∈ (logout db (some h) verify).invalidTokens ∧
    ∀ (db' : DB) (verify2 : String → Option JwtPayload) (steps : List Step),
      t ∈ db'.invalidTokens →
      auth db' (some h) verify2 = none ∧
      t ∈ (runSteps verify2 db' steps).invalidTokens := by
  refine ⟨logout_records_token db h t u verify hb hauth, ?_⟩
  intro db' verify2 steps ht
  exact ⟨auth_revoked db' h t verify2 hb ht,
    runSteps_invalidTokens_mono verify2 steps db' ht⟩

/-- Witness for `revoked_token_never_accepted`: user 1 logs out with
"Bearer tok1"; afterwards auth rejects the very same header. -/
theorem revoked_token_never_accepted_witness :
    "tok1" ∈ (logout exDB (some "Bearer tok1") exVerify).invalidTokens ∧
    auth (logout exDB (some "Bearer tok1") exVerify) (some "Bearer tok1") exVerify = none := by
  have h := revoked_token_never_accepted exDB "Bearer tok1" "tok1" exUser exVerify
    (by with_unfolding_all decide) (by with_unfolding_all decide)
  exact ⟨h.1, (h.2 (logout exDB (some "Bearer tok1") exVerify) exVerify [] h.1).1⟩

end Techpedia
